import Mathlib

/-!
Verification of the adaptive multi-strategy extraction pipeline
(job-scraper). Shallow embedding of:

* `app/agents/extractor_agent.py` (record extraction, dedup, caps)
* `app/scrapers/hybrid_scraper.py` (hybrid fallback and merge)
* `app/utils/adaptive_fetcher.py` (fetch-strategy decision)
* `app/agents/base_agent.py` + `app/agents/orchestrator.py`
  (staged pipeline, validation, error aggregation)

External collaborators (BeautifulSoup DOM queries, Playwright
navigation, httpx, hashlib) are modelled as abstract parameters:
the repository's own control flow over their results is embedded
faithfully from the source.
-/

namespace JobScraper

/-! Python string primitives, embedded over character lists so that
they evaluate by kernel reduction. -/

/-- Python `str.lower` (ASCII case mapping). -/
def pyLower (s : String) : String := String.mk (s.data.map Char.toLower)

/-- Python `str.strip()`: drop whitespace from both ends. -/
def pyStrip (s : String) : String :=
  String.mk
    (((s.data.dropWhile Char.isWhitespace).reverse.dropWhile
      Char.isWhitespace).reverse)

/-- Python `str.startswith`. -/
def pyStartsWith (s pre : String) : Bool := pre.data.isPrefixOf s.data

/-- Single-character `str.split` accumulator. -/
def splitCharAux (sep : Char) : List Char → List Char → List (List Char)
  | [], acc => [acc.reverse]
  | c :: rest, acc =>
    if c = sep then acc.reverse :: splitCharAux sep rest []
    else splitCharAux sep rest (c :: acc)

/-- Python `str.split(sep)` for a one-character separator. -/
def pySplitChar (s : String) (sep : Char) : List String :=
  (splitCharAux sep s.data []).map String.mk

/-- Python `str.replace(old, new)` for one-character patterns. -/
def pyReplaceChar (s : String) (old new : Char) : String :=
  String.mk (s.data.map (fun c => if c = old then new else c))

/-- Python's `x or d` for an optional string `x`: yields `d` when `x`
is `None` or the empty string (both falsy), else the string itself. -/
def pyOr (x : Option String) (d : String) : String :=
  match x with
  | none => d
  | some s => if s = "" then d else s

/-- `models.JobListing` (pydantic model); `posted_at` is kept abstract
as an optional timestamp. -/
structure JobListing where
  id : String
  source : String
  title : String
  company : String
  company_logo : Option String := none
  description : String := ""
  url : String
  location : Option String := none
  job_type : Option String := none
  salary : Option String := none
  tags : List String := []
  posted_at : Option Nat := none
  country : Option String := none
  deriving DecidableEq, Repr

/-! ## Record Extractor (`extractor_agent.py`) -/

/-- A DOM element as the extractor observes it: its tag name, its
`href` attribute (`""` models an absent attribute, matching
`link.get("href", "")`), and its stripped text
(`get_text(strip=True)`). -/
structure Elem where
  tagName : String
  href : String := ""
  text : String := ""
  deriving DecidableEq, Repr

/-- One job-card container: the container element itself plus the
result of `card.select_one(sel)` for any selector `sel` (BeautifulSoup
collaborator), and `card.select(sel)` used for tags. -/
structure Card where
  elem : Elem
  selectOne : String → Option Elem
  selectAll : String → List Elem

/-- The selector dictionary the analyzer hands to the extractor
(`context.detected_selectors`); each entry optional. -/
structure DetectedSelectors where
  job_card : Option String := none
  title : Option String := none
  company : Option String := none
  location : Option String := none
  salary : Option String := none
  tags : Option String := none
  link : Option String := none
  deriving DecidableEq, Repr

/-- `ExtractorAgent._extract_text`: split a comma-separated selector
chain, try each part in order, return the first non-empty stripped
text. Returns `none` when no selector, no element, or only empty
texts. -/
def extractText (card : Card) (selector : Option String) : Option String :=
  match selector with
  | none => none
  | some sel => go ((pySplitChar sel ',').map pyStrip)
where
  go : List String → Option String
    | [] => none
    | s :: rest =>
      match card.selectOne s with
      | some e => if e.text = "" then go rest else some e.text
      | none => go rest

/-- `ExtractorAgent._extract_url`: the card itself if it is an `<a>`,
else the first match of the link selector, else any `a[href]`; the
`href` is made absolute against `base_url` when it does not start with
`"http"`. Returns `none` when no link element or empty `href`. -/
def extractUrl (card : Card) (selector : Option String) (baseUrl : String) :
    Option String :=
  let link : Option Elem :=
    if card.elem.tagName = "a" then some card.elem
    else match selector with
      | some sel => card.selectOne sel
      | none => none
  let link : Option Elem :=
    match link with
    | some l => some l
    | none => card.selectOne "a[href]"
  match link with
  | none => none
  | some l =>
    if l.href = "" then none
    else if pyStartsWith l.href "http" then some l.href
    else some (baseUrl ++ l.href)

/-- `ExtractorAgent._extract_tags`: texts of all matches, keeping only
non-empty ones shorter than 50 characters, at most 10. -/
def extractTags (card : Card) (selector : Option String) : List String :=
  match selector with
  | none => []
  | some sel =>
    (((card.selectAll sel).map (·.text)).filter
      (fun t => t ≠ "" ∧ t.length < 50)).take 10

/-- `ExtractorAgent.BASE_URLS` lookup with default `""`. -/
def extractorBaseUrl (source : String) : String :=
  if source = "geekhunter" then "https://www.geekhunter.com.br"
  else if source = "vagascombr" then "https://www.vagas.com.br"
  else ""

/-- `ExtractorAgent._generate_id`: `"{source}-{md5(url)[:12]}"`; the
md5 hex digest is the `hashlib` collaborator `md5hex`. -/
def generateId (md5hex : String → String) (source url : String) : String :=
  source ++ "-" ++ (md5hex url).take 12

/-- Python truthiness plus length test `not title or len(title) < 5`
on an optional title. -/
def titleTooShort : Option String → Prop
  | none => True
  | some s => s.length < 5

instance : DecidablePred titleTooShort := fun t =>
  match t with
  | none => isTrue trivial
  | some s => inferInstanceAs (Decidable (s.length < 5))

/-- The title-resolution step of `ExtractorAgent._extract_job`: the
selector-derived title, overwritten by the primary link's text when it
is missing or under 5 characters (the card itself when it is an `<a>`,
else its first `<a>` descendant; left alone when no link exists). -/
def resolveTitle (card : Card) (sels : DetectedSelectors) : Option String :=
  let title0 := extractText card sels.title
  if titleTooShort title0 then
    let linkElem :=
      if card.elem.tagName = "a" then some card.elem
      else card.selectOne "a"
    match linkElem with
    | some l => some l.text
    | none => title0
  else title0

/-- `ExtractorAgent._extract_job`: resolve the URL first (skip when
absent or already seen), resolve the title with the link-text fallback
(skip when still under 5 characters), then build the record with
defaulted company/location. -/
def extractJob (md5hex : String → String) (card : Card)
    (sels : DetectedSelectors) (source country : String)
    (seenUrls : List String) : Option JobListing :=
  match extractUrl card sels.link (extractorBaseUrl source) with
  | none => none
  | some url =>
    if url ∈ seenUrls then none
    else
      if titleTooShort (resolveTitle card sels) then none
      else
        some {
          id := generateId md5hex source url
          source := source
          title := (resolveTitle card sels).getD ""
          company := pyOr (extractText card sels.company) "Empresa não identificada"
          description := ""
          url := url
          location := some (pyOr (extractText card sels.location) "Brasil")
          job_type := some "On-site"
          salary := extractText card sels.salary
          tags := extractTags card sels.tags
          posted_at := none
          country := some country }

/-- The card loop of `ExtractorAgent.execute`: accept a card's record,
remember its URL, stop at `limit` accepted records. -/
def extractLoop (md5hex : String → String) (sels : DetectedSelectors)
    (source country : String) (limit : Nat) :
    List Card → List String → List JobListing → List JobListing
  | [], _, jobs => jobs
  | card :: rest, seenUrls, jobs =>
    match extractJob md5hex card sels source country seenUrls with
    | none => extractLoop md5hex sels source country limit rest seenUrls jobs
    | some job =>
      let jobs' := jobs ++ [job]
      if limit ≤ jobs'.length then jobs'
      else extractLoop md5hex sels source country limit rest
        (job.url :: seenUrls) jobs'

/-- `ExtractorAgent.execute` on an already-selected card list
(`soup.select(job_card)` is the DOM collaborator): over-scan
`2 × limit` cards and run the extraction loop. -/
def extractJobs (md5hex : String → String) (cards : List Card)
    (sels : DetectedSelectors) (source country : String) (limit : Nat) :
    List JobListing :=
  extractLoop md5hex sels source country limit (cards.take (limit * 2)) [] []

/-! ## Hybrid Fallback & Merge (`hybrid_scraper.py`) -/

/-- The `title.lower() + "|" + company.lower()` dedup key of
`HybridScraper._merge_jobs`. -/
def mergeKey (j : JobListing) : String :=
  pyLower j.title ++ "|" ++ pyLower j.company

/-- The secondary-record loop of `HybridScraper._merge_jobs`: skip on
URL collision (non-empty URLs only) or key collision, otherwise append
and record; break once the merged length reaches `limit`. -/
def mergeLoop (limit : Nat) :
    List JobListing → List String → List String → List JobListing →
    List JobListing
  | [], _, _, merged => merged
  | job :: rest, seenUrls, seenKeys, merged =>
    if job.url ≠ "" ∧ job.url ∈ seenUrls then
      mergeLoop limit rest seenUrls seenKeys merged
    else if mergeKey job ∈ seenKeys then
      mergeLoop limit rest seenUrls seenKeys merged
    else
      if limit ≤ (merged ++ [job]).length then merged ++ [job]
      else
        mergeLoop limit rest
          (if job.url ≠ "" then job.url :: seenUrls else seenUrls)
          (mergeKey job :: seenKeys) (merged ++ [job])

/-- `HybridScraper._merge_jobs`: seed the seen sets from the primary
(deterministic) records — non-empty URLs plus all title|company keys —
and fold the secondary (oracle) records through `mergeLoop`. -/
def mergeJobs (primary secondary : List JobListing) (limit : Nat) :
    List JobListing :=
  mergeLoop limit secondary
    ((primary.filter (fun j => j.url ≠ "")).map (·.url))
    (primary.map mergeKey)
    primary

/-- The collaborators and configuration of `HybridScraper.search`:
the adaptive fetcher's result per URL, the subclass `_parse_html`,
the `_try_ai_extraction` result, the subclass `build_search_url`, and
the module-level `AI_FALLBACK_ENABLED` / `AI_FALLBACK_THRESHOLD`. -/
structure HybridEnv where
  fetchResult : String → String
  parseHtml : String → Nat → List JobListing
  tryAiExtraction : String → Nat → List JobListing
  buildSearchUrl : String → String → String
  aiFallbackEnabled : Bool
  aiFallbackThreshold : Nat

/-- `HybridScraper.search`, instrumented: also returns the list of
`(html, limit)` arguments on which `_try_ai_extraction` was invoked. -/
def hybridSearch (env : HybridEnv) (keyword country : String)
    (limit : Nat) : List JobListing × List (String × Nat) :=
  let url := env.buildSearchUrl keyword country
  let html := env.fetchResult url
  let jobs := env.parseHtml html limit
  if jobs.length < env.aiFallbackThreshold ∧ env.aiFallbackEnabled then
    let aiJobs := env.tryAiExtraction html limit
    let jobs := if aiJobs ≠ [] then mergeJobs jobs aiJobs limit else jobs
    (jobs.take limit, [(html, limit)])
  else
    (jobs.take limit, [])

/-! ## Adaptive Fetch Strategy (`adaptive_fetcher.py`) -/

/-- Substring test: Python's `pat in s` on strings. -/
def containsSub (s pat : String) : Bool :=
  s.data.tails.any (fun t => pat.data.isPrefixOf t)

/-- `JS_REQUIRED_DOMAINS`: sites that always need JavaScript. -/
def JS_REQUIRED_DOMAINS : List String :=
  ["geekhunter.com.br", "vagas.com.br", "catho.com.br", "99jobs.com"]

/-- The characters after the first `"//"` of a URL. -/
def afterDoubleSlash : List Char → Option (List Char)
  | '/' :: '/' :: rest => some rest
  | _ :: rest => afterDoubleSlash rest
  | [] => none

/-- The `netloc` of `urllib.parse.urlparse` for absolute URLs: the
part after `"//"` up to the next `/`, `?` or `#` (and `""` when the
URL has no `"//"`). -/
def urlNetloc (url : String) : String :=
  match afterDoubleSlash url.data with
  | some rest =>
    String.mk (rest.takeWhile (fun c => !(c == '/' || c == '?' || c == '#')))
  | none => ""

/-- `AdaptiveFetcher._domain_requires_js`: lowercase the netloc, strip
a leading `"www."`, and test membership in `JS_REQUIRED_DOMAINS`. -/
def domainRequiresJs (url : String) : Bool :=
  let domain := pyLower (urlNetloc url)
  let domain :=
    if pyStartsWith domain "www." then String.mk (domain.data.drop 4)
    else domain
  domain ∈ JS_REQUIRED_DOMAINS

/-- The fixed SPA/loading indicator list of
`AdaptiveFetcher._html_needs_js`. -/
def spaIndicators : List String :=
  ["React", "__NEXT_DATA__", "ng-app", "data-reactroot",
   "id=\"app\"", "id=\"root\"", "id=\"__next\"",
   "loading...", "carregando..."]

/-- The indicator loop of `_html_needs_js`: an indicator (lowercased)
occurring in the lowercased markup returns `true` when the visible
text is under 1000 characters; otherwise the loop continues. -/
def spaIndicatorLoop (htmlLower : String) (textLen : Nat) :
    List String → Bool
  | [] => false
  | ind :: rest =>
    if containsSub htmlLower (pyLower ind) ∧ textLen < 1000 then true
    else spaIndicatorLoop htmlLower textLen rest

/-- `AdaptiveFetcher._html_needs_js`; `visibleText` is the text that
BeautifulSoup yields after decomposing script/style/noscript nodes
(the `soup.get_text` collaborator result for `html`). -/
def htmlNeedsJs (html visibleText : String) : Bool :=
  if visibleText.length < 500 then true
  else spaIndicatorLoop (pyLower html) visibleText.length spaIndicators

/-- Outcome of one `AdaptiveFetcher.fetch` call: the returned markup,
whether the Playwright render path produced it, and whether the
lightweight HTTP fetch was attempted at all. -/
structure FetchOutcome where
  html : String
  usedPlaywright : Bool
  httpAttempted : Bool
  deriving DecidableEq, Repr

/-- `AdaptiveFetcher.fetch`. Collaborator results are parameters:
`httpResult` is `fetch_with_http`'s `(text, status_code)` (`none`
models the raised exception), `renderedHtml` is what
`fetch_with_playwright` returns, and `visibleTextOf` is the
BeautifulSoup text extraction used by `_html_needs_js`. -/
def adaptiveFetch (url : String) (forceJs : Bool)
    (httpResult : Option (String × Nat)) (renderedHtml : String)
    (visibleTextOf : String → String) : FetchOutcome :=
  let needsJs := forceJs || domainRequiresJs url
  if needsJs then
    { html := renderedHtml, usedPlaywright := true, httpAttempted := false }
  else
    match httpResult with
    | none =>
      { html := renderedHtml, usedPlaywright := true, httpAttempted := true }
    | some (html, status) =>
      if status ≠ 200 then
        { html := renderedHtml, usedPlaywright := true, httpAttempted := true }
      else if htmlNeedsJs html (visibleTextOf html) then
        { html := renderedHtml, usedPlaywright := true, httpAttempted := true }
      else
        { html := html, usedPlaywright := false, httpAttempted := true }

/-! ## Staged agent pipeline (`base_agent.py`, `search_agent.py`,
`page_agent.py`, `analyzer_agent.py`, `orchestrator.py`) -/

/-- `AgentStatus` enum. -/
inductive AgentStatus where
  | pending
  | running
  | success
  | failed
  | skipped
  deriving DecidableEq, Repr

/-- `AgentResult` (the untyped `data` debug payload is omitted). -/
structure AgentResult where
  status : AgentStatus
  message : String := ""
  error : Option String := none
  deriving DecidableEq, Repr

/-- `AgentResult.success` classmethod. -/
def AgentResult.success (message : String) : AgentResult :=
  { status := AgentStatus.success, message := message }

/-- `AgentResult.failed` classmethod. -/
def AgentResult.failed (error : String) (message : String) : AgentResult :=
  { status := AgentStatus.failed, message := message, error := some error }

/-- `SearchAgent._build_*_url` pagination record. -/
structure PaginationInfo where
  current_page : Nat
  has_more : Bool
  per_page : Nat
  deriving DecidableEq, Repr

/-- `AnalyzerAgent`'s `context.page_structure` record. -/
structure PageStructure where
  job_cards_found : Nat
  has_pagination : Bool
  has_filters : Bool
  page_language : String
  deriving DecidableEq, Repr

/-- The metadata keys the pipeline reads (`remote_only`,
`experience_level`). -/
structure ScraperMetadata where
  remote_only : Bool := false
  experience_level : Option String := none
  deriving DecidableEq, Repr

/-- `AgentContext`: the shared mutable state threaded through the
stages. Optional fields start as `None`; `detected_selectors` is
`none` for the initial empty dict. -/
structure AgentContext where
  keyword : String := ""
  source : String := ""
  country : String := "br"
  limit : Nat := 50
  search_url : Option String := none
  pagination_info : Option PaginationInfo := none
  html_content : Option String := none
  page_title : Option String := none
  detected_selectors : Option DetectedSelectors := none
  page_structure : Option PageStructure := none
  jobs : List JobListing := []
  errors : List String := []
  metadata : ScraperMetadata := {}
  deriving DecidableEq, Repr

/-- `AgentContext.add_error`. -/
def addError (ctx : AgentContext) (e : String) : AgentContext :=
  { ctx with errors := ctx.errors ++ [e] }

/-- `SearchAgent.SOURCE_CONFIGS` entry. -/
structure SourceConfig where
  base_url : String
  search_path : String
  search_param : Option String
  supports_filters : Bool

/-- `SearchAgent.SOURCE_CONFIGS`. -/
def SOURCE_CONFIGS : String → Option SourceConfig
  | "geekhunter" =>
    some ⟨"https://www.geekhunter.com.br", "/vagas", some "search", true⟩
  | "vagascombr" =>
    some ⟨"https://www.vagas.com.br", "/vagas-de-{keyword}", none, false⟩
  | _ => none

/-- `SearchAgent.validate_context`. -/
def searchValidate (ctx : AgentContext) : Option String :=
  if ctx.keyword = "" then some "keyword is required for SearchAgent"
  else if ctx.source = "" then some "source is required for SearchAgent"
  else if (SOURCE_CONFIGS ctx.source).isNone then
    some ("Unknown source: " ++ ctx.source ++
      ". Available: ['geekhunter', 'vagascombr']")
  else none

/-- One hex digit (uppercase), as `urllib.parse.quote` prints it. -/
def hexDigitChar (n : Nat) : Char :=
  if n < 10 then Char.ofNat (48 + n) else Char.ofNat (55 + n)

/-- Percent-encode one character's UTF-8 bytes. -/
def percentEncodeChar (c : Char) : String :=
  String.join (((String.singleton c).toUTF8.toList).map
    (fun b => "%" ++ String.mk
      [hexDigitChar (b.toNat / 16), hexDigitChar (b.toNat % 16)]))

/-- `urllib.parse.quote_plus`: ASCII alphanumerics and `_.-~` pass
through, a space becomes `+`, everything else is percent-encoded. -/
def quotePlus (s : String) : String :=
  String.join (s.data.map (fun c =>
    if c = ' ' then "+"
    else if c.isAlphanum ∨ c = '_' ∨ c = '.' ∨ c = '-' ∨ c = '~' then
      String.singleton c
    else percentEncodeChar c))

/-- `urllib.parse.urlencode` over an ordered parameter list. -/
def urlencodePairs (params : List (String × String)) : String :=
  String.intercalate "&"
    (params.map (fun p => quotePlus p.1 ++ "=" ++ quotePlus p.2))

/-- `SearchAgent._build_geekhunter_url`: base plus query string with
the search keyword and the optional metadata filters. -/
def buildGeekhunterUrl (ctx : AgentContext) (cfg : SourceConfig) : String :=
  let base := cfg.base_url ++ cfg.search_path
  let params := [(cfg.search_param.getD "None", ctx.keyword)]
  let params := params ++
    (if ctx.metadata.remote_only then [("remote", "true")] else [])
  let params := params ++
    (match ctx.metadata.experience_level with
     | some e => if e = "" then [] else [("experience", e)]
     | none => [])
  base ++ "?" ++ urlencodePairs params

/-- The `"...{keyword}...".format(keyword=slug)` call of
`SearchAgent._build_vagascombr_url`. -/
def formatKeyword (slug : String) : List Char → List Char
  | '{' :: 'k' :: 'e' :: 'y' :: 'w' :: 'o' :: 'r' :: 'd' :: '}' :: rest =>
    slug.data ++ formatKeyword slug rest
  | c :: rest => c :: formatKeyword slug rest
  | [] => []

/-- `SearchAgent._build_vagascombr_url`: path-based search with a
lowercased, dash-joined, quoted keyword slug. -/
def buildVagascombrUrl (ctx : AgentContext) (cfg : SourceConfig) : String :=
  let slug := quotePlus (pyReplaceChar (pyLower ctx.keyword) ' ' '-')
  cfg.base_url ++ String.mk (formatKeyword slug cfg.search_path.data)

/-- `SearchAgent._build_generic_url` (unreachable for the two known
sources; `search_param` of `None` prints as `"None"`). -/
def buildGenericUrl (ctx : AgentContext) (cfg : SourceConfig) : String :=
  let base := cfg.base_url ++ cfg.search_path
  let p := match cfg.search_param with
    | some s => s
    | none => "None"
  base ++ "?" ++ p ++ "=" ++ quotePlus ctx.keyword

/-- `SearchAgent.execute`: build the source URL, store it and the
pagination record on the context. The `SOURCE_CONFIGS[...]` lookup
raises `KeyError` for an unknown source (prevented by validation). -/
def searchExecute (ctx : AgentContext) :
    Except String (AgentContext × AgentResult) :=
  match SOURCE_CONFIGS ctx.source with
  | none => Except.error ("'" ++ ctx.source ++ "'")
  | some cfg =>
    let url :=
      if ctx.source = "geekhunter" then buildGeekhunterUrl ctx cfg
      else if ctx.source = "vagascombr" then buildVagascombrUrl ctx cfg
      else buildGenericUrl ctx cfg
    let ctx' := { ctx with
      search_url := some url
      pagination_info := some ⟨1, false, ctx.limit⟩ }
    Except.ok (ctx', AgentResult.success ("Search URL built for " ++ ctx.source))

/-- `PageAgent.validate_context`. -/
def pageValidate (ctx : AgentContext) : Option String :=
  match ctx.search_url with
  | none => some "search_url is required for PageAgent"
  | some u =>
    if u = "" then some "search_url is required for PageAgent" else none

/-- `PageAgent.execute`: Playwright navigation is the collaborator
`nav`, giving `(page title, rendered html)` or an exception; the agent
catches its own exceptions and converts them to a failed result. -/
def pageExecute (nav : String → Except String (String × String))
    (ctx : AgentContext) : Except String (AgentContext × AgentResult) :=
  match nav (ctx.search_url.getD "") with
  | Except.error e => Except.ok (ctx, AgentResult.failed e "Failed to load page")
  | Except.ok (title, html) =>
    let ctx' := { ctx with page_title := some title, html_content := some html }
    Except.ok (ctx', AgentResult.success
      ("Page loaded successfully (" ++ toString html.length ++ " bytes)"))

/-- Abstract BeautifulSoup view of the fetched page, as the analyzer
and extractor query it: `len(soup.select(sel))`, whether
`soup.select_one(sel)` finds an element, the stripped text of
`select_one(child)` inside the first `parent` match (`none` when the
child is absent), the card list `soup.select(sel)`, and the page
language attributes. -/
structure Dom where
  selectCount : String → Nat
  selectOneExists : String → Bool
  cardChildText : String → String → Option String
  selectCards : String → List Card
  htmlLang : Option String := none
  metaLang : Option String := none

/-- `AnalyzerAgent.KNOWN_SELECTORS` row. -/
structure KnownSelectors where
  job_cards : List String := []
  title : List String := []
  company : List String := []
  location : List String := []
  salary : List String := []
  tags : List String := []
  link : List String := []

/-- `AnalyzerAgent.KNOWN_SELECTORS` (`{}` default for other
sources). -/
def KNOWN_SELECTORS (source : String) : KnownSelectors :=
  if source = "geekhunter" then
    { job_cards := ["[data-testid=\"job-card\"]", ".job-card",
        ".vaga-card", "a[href*=\"/vagas/\"]"]
      title := ["h2", "h3", ".job-title", "[data-testid=\"job-title\"]"]
      company := [".company", ".empresa", "[data-testid=\"company-name\"]"]
      location := [".location", ".local", "[data-testid=\"location\"]"]
      salary := [".salary", ".salario", "[data-testid=\"salary\"]"]
      tags := [".tag", ".skill", ".tech-stack span"]
      link := ["a[href*=\"/vagas/\"]"] }
  else if source = "vagascombr" then
    { job_cards := [".vaga", ".job-listing", ".resultado-item",
        "a[href*=\"/vaga/\"]"]
      title := ["h2", ".titulo", ".vaga-title"]
      company := [".empresa", ".company"]
      location := [".local", ".location"]
      salary := [".salario", ".salary"]
      tags := [".tag", ".skill"]
      link := ["a[href*=\"/vaga/\"]"] }
  else {}

/-- `AnalyzerAgent._detect_job_cards`: the selector with the highest
non-zero match count (first maximum wins). -/
def detectJobCards (dom : Dom) (selectors : List String) :
    Option String × Nat :=
  selectors.foldl
    (fun best sel =>
      let c := dom.selectCount sel
      if best.2 < c then (some sel, c) else best)
    (none, 0)

/-- `AnalyzerAgent._auto_detect_job_cards` pattern list. -/
def AUTO_PATTERNS : List String :=
  ["[data-job]", "[data-vaga]", "[data-listing]",
   "[data-testid*=\"job\"]", "[data-testid*=\"vaga\"]",
   "[class*=\"job-card\"]", "[class*=\"vaga\"]", "[class*=\"listing\"]",
   "[class*=\"result-item\"]",
   "a[href*=\"/job/\"]", "a[href*=\"/vaga/\"]", "a[href*=\"/position/\"]",
   "a[href*=\"/oportunidade/\"]",
   "li[class*=\"job\"]", "article[class*=\"job\"]", "div[class*=\"job\"]"]

/-- `AnalyzerAgent._auto_detect_job_cards`: first pattern with at
least 3 matches. -/
def autoDetectJobCards (dom : Dom) : Option String × Nat :=
  match AUTO_PATTERNS.find? (fun p => 3 ≤ dom.selectCount p) with
  | some p => (some p, dom.selectCount p)
  | none => (none, 0)

/-- `AnalyzerAgent._find_working_selector`: inside the first job card,
the first candidate with non-empty text, else the first declared
candidate unverified. -/
def findWorkingSelector (dom : Dom) (selectors : List String)
    (parentSel : Option String) : Option String :=
  match parentSel with
  | none => selectors.head?
  | some p =>
    if dom.selectOneExists p then
      match selectors.find? (fun s =>
        match dom.cardChildText p s with
        | some t => !(t == "")
        | none => false) with
      | some s => some s
      | none => selectors.head?
    else selectors.head?

/-- `AnalyzerAgent._detect_pagination` pattern list. -/
def PAGINATION_PATTERNS : List String :=
  [".pagination", ".pager", "[class*=\"pagination\"]",
   "nav[aria-label*=\"page\"]", "nav[aria-label*=\"paginação\"]",
   ".page-numbers", "a[href*=\"page=\"]", "a[href*=\"pagina=\"]"]

/-- `AnalyzerAgent._detect_pagination`. -/
def detectPagination (dom : Dom) : Bool :=
  PAGINATION_PATTERNS.any dom.selectOneExists

/-- `AnalyzerAgent._detect_filters` pattern list. -/
def FILTER_PATTERNS : List String :=
  ["[class*=\"filter\"]", "[class*=\"filtro\"]", "select[name*=\"filter\"]",
   "input[type=\"checkbox\"][name*=\"filter\"]", "[data-filter]"]

/-- `AnalyzerAgent._detect_filters`. -/
def detectFilters (dom : Dom) : Bool :=
  FILTER_PATTERNS.any dom.selectOneExists

/-- The meta-tag step of `AnalyzerAgent._detect_language`. -/
def detectLanguageMeta (dom : Dom) : String :=
  match dom.metaLang with
  | some c => if c = "" then "pt" else String.mk (c.data.take 2)
  | none => "pt"

/-- `AnalyzerAgent._detect_language`: html `lang` attribute, then the
`content-language` meta tag, then `"pt"`. -/
def detectLanguage (dom : Dom) : String :=
  match dom.htmlLang with
  | some l =>
    if l = "" then detectLanguageMeta dom else String.mk (l.data.take 2)
  | none => detectLanguageMeta dom

/-- `AnalyzerAgent.validate_context`. -/
def analyzerValidate (ctx : AgentContext) : Option String :=
  match ctx.html_content with
  | none => some "html_content is required for AnalyzerAgent"
  | some h =>
    if h = "" then some "html_content is required for AnalyzerAgent" else none

/-- `AnalyzerAgent.execute`: known-selector pass, auto-detect pass when
it finds nothing, per-field resolution, page structure; always
succeeds and stores a selector dict even when no job card selector was
found. -/
def analyzerExecute (dom : Dom) (ctx : AgentContext) :
    Except String (AgentContext × AgentResult) :=
  let known := KNOWN_SELECTORS ctx.source
  let first := detectJobCards dom known.job_cards
  let jc := if first.2 = 0 then autoDetectJobCards dom else first
  let ds : DetectedSelectors := {
    job_card := jc.1
    title := findWorkingSelector dom known.title jc.1
    company := findWorkingSelector dom known.company jc.1
    location := findWorkingSelector dom known.location jc.1
    salary := findWorkingSelector dom known.salary jc.1
    tags := findWorkingSelector dom known.tags jc.1
    link := findWorkingSelector dom known.link jc.1 }
  let ps : PageStructure :=
    ⟨jc.2, detectPagination dom, detectFilters dom, detectLanguage dom⟩
  let ctx' := { ctx with detected_selectors := some ds, page_structure := some ps }
  Except.ok (ctx', AgentResult.success
    ("Analyzed page structure, found " ++ toString jc.2 ++ " job cards"))

/-- `ExtractorAgent.validate_context`: requires non-empty HTML, a
non-empty selector dict, and a truthy `job_card` selector. -/
def extractorValidate (ctx : AgentContext) : Option String :=
  match ctx.html_content with
  | none => some "html_content is required for ExtractorAgent"
  | some h =>
    if h = "" then some "html_content is required for ExtractorAgent"
    else match ctx.detected_selectors with
      | none => some "detected_selectors is required for ExtractorAgent"
      | some ds =>
        match ds.job_card with
        | none => some "job_card selector is required for ExtractorAgent"
        | some jc =>
          if jc = "" then some "job_card selector is required for ExtractorAgent"
          else none

/-- `ExtractorAgent.execute` inside the pipeline: select the job
cards, succeed with no records when none match, else run the
extraction loop over `2 × limit` cards and store the records. -/
def extractorExecute (md5hex : String → String) (dom : Dom)
    (ctx : AgentContext) : Except String (AgentContext × AgentResult) :=
  let sels := (ctx.detected_selectors).getD {}
  let jobCards := match sels.job_card with
    | some s => dom.selectCards s
    | none => []
  if jobCards.isEmpty then
    Except.ok (ctx, AgentResult.success "No job cards found")
  else
    let jobs := extractLoop md5hex sels ctx.source ctx.country ctx.limit
      (jobCards.take (ctx.limit * 2)) [] []
    Except.ok ({ ctx with jobs := jobs },
      AgentResult.success ("Extracted " ++ toString jobs.length ++ " jobs"))

/-- One pipeline stage: its name, `validate_context` and `execute`. -/
structure Agent where
  name : String
  validate : AgentContext → Option String
  execute : AgentContext → Except String (AgentContext × AgentResult)

/-- `BaseAgent.run`: a validation failure returns a failed result
without touching the context (in particular without adding to its
error list); a failed execution or an uncaught exception appends
`"{name}: {error}"` to the context's error list. The boolean records
whether the stage body (`execute`) was entered. -/
def runAgent (a : Agent) (ctx : AgentContext) :
    AgentContext × AgentResult × Bool :=
  match a.validate ctx with
  | some e => (ctx, AgentResult.failed e "Context validation failed", false)
  | none =>
    match a.execute ctx with
    | Except.error e =>
      (addError ctx (a.name ++ ": " ++ e),
       AgentResult.failed e "Unexpected error", true)
    | Except.ok (ctx2, res) =>
      match res.status with
      | AgentStatus.failed =>
        (addError ctx2 (a.name ++ ": " ++ (res.error.getD "None")), res, true)
      | _ => (ctx2, res, true)

/-- Observability record for one orchestrated stage: the stage name,
the `AgentResult` its `run` returned, and whether its body ran. -/
structure StageTrace where
  name : String
  result : AgentResult
  bodyRan : Bool
  deriving DecidableEq, Repr

/-- The stage loop of `AgentOrchestrator.search`: run each agent in
order; a failed result on a critical stage (`search` or `page`) breaks
out of the loop, a failed `analyzer` or `extractor` does not. -/
def runPipeline : List Agent → AgentContext → AgentContext × List StageTrace
  | [], ctx => (ctx, [])
  | a :: rest, ctx =>
    if (runAgent a ctx).2.1.status = AgentStatus.failed ∧
        (a.name = "search" ∨ a.name = "page") then
      ((runAgent a ctx).1,
        [⟨a.name, (runAgent a ctx).2.1, (runAgent a ctx).2.2⟩])
    else
      ((runPipeline rest (runAgent a ctx).1).1,
        ⟨a.name, (runAgent a ctx).2.1, (runAgent a ctx).2.2⟩ ::
          (runPipeline rest (runAgent a ctx).1).2)

/-- What `AgentOrchestrator.search` hands back, instrumented with the
stage trace (as `search_with_details` records it). -/
structure PipelineOutcome where
  jobs : List JobListing
  errors : List String
  trace : List StageTrace

/-- The fresh `AgentContext` that `AgentOrchestrator.search` builds
from the request parameters. -/
def initialContext (keyword source country : String) (limit : Nat)
    (metadata : ScraperMetadata) : AgentContext :=
  { keyword := keyword
    source := source
    country := country
    limit := limit
    metadata := metadata }

/-- The orchestrator's ordered stage list. -/
def pipelineAgents (nav : String → Except String (String × String))
    (dom : Dom) (md5hex : String → String) : List Agent :=
  [⟨"search", searchValidate, searchExecute⟩,
   ⟨"page", pageValidate, pageExecute nav⟩,
   ⟨"analyzer", analyzerValidate, analyzerExecute dom⟩,
   ⟨"extractor", extractorValidate, extractorExecute md5hex dom⟩]

/-- `AgentOrchestrator.search`: build a fresh context from the request
parameters and run the four-stage pipeline, returning the context's
job list and error list. -/
def orchestratorSearch (nav : String → Except String (String × String))
    (dom : Dom) (md5hex : String → String)
    (keyword source country : String) (limit : Nat)
    (metadata : ScraperMetadata) : PipelineOutcome :=
  ⟨(runPipeline (pipelineAgents nav dom md5hex)
      (initialContext keyword source country limit metadata)).1.jobs,
   (runPipeline (pipelineAgents nav dom md5hex)
      (initialContext keyword source country limit metadata)).1.errors,
   (runPipeline (pipelineAgents nav dom md5hex)
      (initialContext keyword source country limit metadata)).2⟩

/-! ## Concrete fixtures used by witnesses and counterexamples -/

/-- A DOM in which no selector matches anything. -/
def emptyPageDom : Dom :=
  { selectCount := fun _ => 0
    selectOneExists := fun _ => false
    cardChildText := fun _ _ => none
    selectCards := fun _ => [] }

/-- A navigation collaborator that always returns the same page. -/
def stubNav : String → Except String (String × String) :=
  fun _ => Except.ok ("Vagas", "<html><body>conteudo</body></html>")

/-- A fixed hash collaborator. -/
def stubMd5 : String → String := fun _ => "d41d8cd98f00b204"

/-- A job-card container that is itself a link with a long title. -/
def aCard : Card :=
  ⟨⟨"a", "/vagas/1", "Desenvolvedor Python"⟩, fun _ => none, fun _ => []⟩

/-- A container with no link at all. -/
def divCard : Card :=
  ⟨⟨"div", "", ""⟩, fun _ => none, fun _ => []⟩

/-- A link container whose only available title text is too short. -/
def shortTitleCard : Card :=
  ⟨⟨"a", "/vagas/2", "abc"⟩, fun _ => none, fun _ => []⟩

/-- Deterministic record `{url: "a"}` of the merge example. -/
def jobA : JobListing :=
  { id := "1", source := "s", title := "Dev Python Senior",
    company := "Acme", url := "a" }

/-- Oracle record with the same url `"a"`. -/
def jobADup : JobListing :=
  { id := "2", source := "s", title := "Outro titulo",
    company := "Beta", url := "a" }

/-- First new oracle record. -/
def jobB : JobListing :=
  { id := "3", source := "s", title := "Dev Java Pleno",
    company := "Beta", url := "b" }

/-- Second new oracle record. -/
def jobC : JobListing :=
  { id := "4", source := "s", title := "Dev Go Junior",
    company := "Gamma", url := "c" }

/-- Hybrid environment whose deterministic parse yields nothing. -/
def lowYieldEnv : HybridEnv :=
  { fetchResult := fun _ => "<html>pagina</html>"
    parseHtml := fun _ _ => []
    tryAiExtraction := fun _ _ => [jobB, jobC]
    buildSearchUrl := fun k _ => "https://example.com/?q=" ++ k
    aiFallbackEnabled := true
    aiFallbackThreshold := 3 }

/-- Hybrid environment whose deterministic parse already yields three
records. -/
def highYieldEnv : HybridEnv :=
  { fetchResult := fun _ => "<html>pagina</html>"
    parseHtml := fun _ _ => [jobA, jobB, jobC]
    tryAiExtraction := fun _ _ => [jobADup]
    buildSearchUrl := fun k _ => "https://example.com/?q=" ++ k
    aiFallbackEnabled := true
    aiFallbackThreshold := 3 }

/-- The context as it stands after the search stage of a
`keyword="python"`, `source="geekhunter"`, `limit=50` run. -/
def ctxAfterSearch : AgentContext :=
  { keyword := "python"
    source := "geekhunter"
    country := "br"
    limit := 50
    search_url := some "https://www.geekhunter.com.br/vagas?search=python"
    pagination_info := some ⟨1, false, 50⟩ }

/-- The context after the page stage of the same run, once a page
titled `ptitle` with markup `html` was fetched. -/
def ctxAfterPage (ptitle html : String) : AgentContext :=
  { ctxAfterSearch with page_title := some ptitle, html_content := some html }

/-- The selector dict the analyzer stores for a geekhunter page on
which no job-card candidate (known or auto-detected) matched: no
`job_card`, and each field falls back to its first declared
candidate. -/
def geekhunterNoCardSelectors : DetectedSelectors :=
  { job_card := none
    title := some "h2"
    company := some ".company"
    location := some ".location"
    salary := some ".salary"
    tags := some ".tag"
    link := some "a[href*=\"/vagas/\"]" }

/-- The context after the analyzer stage of the same run. -/
def ctxAfterAnalysis (dom : Dom) (ptitle html : String) : AgentContext :=
  { ctxAfterPage ptitle html with
    detected_selectors := some geekhunterNoCardSelectors
    page_structure := some
      ⟨0, detectPagination dom, detectFilters dom, detectLanguage dom⟩ }

/-- The record that `aCard` extracts to. -/
def aJob : JobListing :=
  { id := "geekhunter-d41d8cd98f00"
    source := "geekhunter"
    title := "Desenvolvedor Python"
    company := "Empresa não identificada"
    url := "https://www.geekhunter.com.br/vagas/1"
    location := some "Brasil"
    job_type := some "On-site"
    country := some "br" }

/-- The acceptance discipline of the hybrid merge loop: each record in
the list collides neither by non-empty URL nor by merge key with the
sets of already-accepted URLs/keys, which then grow exactly as
`mergeLoop` grows them. -/
def appendOk : List String → List String → List JobListing → Prop
  | _, _, [] => True
  | seenUrls, seenKeys, j :: rest =>
    (j.url ≠ "" → j.url ∉ seenUrls) ∧ mergeKey j ∉ seenKeys ∧
    appendOk (if j.url ≠ "" then j.url :: seenUrls else seenUrls)
      (mergeKey j :: seenKeys) rest

/-- 500 characters of plain visible text (no SPA markers). -/
def plainText500 : String := String.mk (List.replicate 500 'a')

/-- 200 characters of visible text. -/
def shortText200 : String := String.mk (List.replicate 200 'a')

/-! ## Theorems -/

/-- Everything `extractJob` guarantees about a produced record: the
resolved URL is the record's URL and was unseen, the resolved title is
the record's title with at least 5 characters, and company/location
are the defaulted non-empty resolutions. -/
lemma extractJob_spec {m : String → String} {c : Card}
    {sels : DetectedSelectors} {src ctry : String} {seen : List String}
    {job : JobListing}
    (h : extractJob m c sels src ctry seen = some job) :
    extractUrl c sels.link (extractorBaseUrl src) = some job.url ∧
    job.url ∉ seen ∧
    resolveTitle c sels = some job.title ∧
    5 ≤ job.title.length ∧
    job.company = pyOr (extractText c sels.company) "Empresa não identificada" ∧
    job.location = some (pyOr (extractText c sels.location) "Brasil") := by
  unfold extractJob at h
  split at h
  · exact Option.noConfusion h
  next url hu =>
    split at h
    · exact Option.noConfusion h
    next hseen =>
      split at h
      · exact Option.noConfusion h
      next ht =>
        injection h with h
        subst h
        cases hrt : resolveTitle c sels with
        | none => rw [hrt] at ht; exact absurd trivial ht
        | some t =>
          rw [hrt] at ht
          refine ⟨hu, hseen, ?_, ?_, rfl, rfl⟩
          · simp [hrt]
          · simp only [titleTooShort, not_lt] at ht
            simpa [hrt] using ht

/-- The extraction loop preserves any per-record property that
`extractJob` establishes. -/
lemma extractLoop_mem {m : String → String} {sels : DetectedSelectors}
    {src ctry : String} {limit : Nat} {P : JobListing → Prop}
    (hstep : ∀ c seen job, extractJob m c sels src ctry seen = some job → P job) :
    ∀ (cards : List Card) (seen : List String) (acc : List JobListing),
      (∀ j ∈ acc, P j) →
      ∀ j ∈ extractLoop m sels src ctry limit cards seen acc, P j := by
  intro cards
  induction cards with
  | nil =>
    intro seen acc hacc j hj
    rw [extractLoop] at hj
    exact hacc j hj
  | cons c rest ih =>
    intro seen acc hacc j hj
    rw [extractLoop] at hj
    cases hcase : extractJob m c sels src ctry seen with
    | none =>
      rw [hcase] at hj
      exact ih seen acc hacc j hj
    | some job' =>
      rw [hcase] at hj
      have hacc' : ∀ x ∈ acc ++ [job'], P x := by
        intro x hx
        rcases List.mem_append.mp hx with hx | hx
        · exact hacc x hx
        · rw [List.mem_singleton.mp hx]
          exact hstep c seen job' hcase
      simp only at hj
      split at hj
      · exact hacc' j hj
      · exact ih _ _ hacc' j hj

/-- The extraction loop never produces two records with the same URL:
accepted URLs are recorded as seen, and `extractJob` skips seen
URLs. -/
lemma extractLoop_urls_nodup {m : String → String} {sels : DetectedSelectors}
    {src ctry : String} {limit : Nat} :
    ∀ (cards : List Card) (seen : List String) (acc : List JobListing),
      (∀ j ∈ acc, j.url ∈ seen) →
      (acc.map (fun j => j.url)).Nodup →
      ((extractLoop m sels src ctry limit cards seen acc).map
        (fun j => j.url)).Nodup := by
  intro cards
  induction cards with
  | nil =>
    intro seen acc _ hnd
    rw [extractLoop]
    exact hnd
  | cons c rest ih =>
    intro seen acc hsub hnd
    rw [extractLoop]
    cases hcase : extractJob m c sels src ctry seen with
    | none => exact ih seen acc hsub hnd
    | some job' =>
      have hnew : job'.url ∉ seen := (extractJob_spec hcase).2.1
      have hnotacc : job'.url ∉ acc.map (fun j => j.url) := by
        intro hmem
        rcases List.mem_map.mp hmem with ⟨x, hx, hxeq⟩
        exact hnew (hxeq ▸ hsub x hx)
      have hnd' : ((acc ++ [job']).map (fun j => j.url)).Nodup := by
        rw [List.map_append]
        rw [List.nodup_append]
        refine ⟨hnd, List.nodup_singleton _, ?_⟩
        intro u hu hu'
        rcases List.mem_singleton.mp hu' with rfl
        exact hnotacc hu
      have hsub' : ∀ x ∈ acc ++ [job'], x.url ∈ job'.url :: seen := by
        intro x hx
        rcases List.mem_append.mp hx with hx | hx
        · exact List.mem_cons_of_mem _ (hsub x hx)
        · rcases List.mem_singleton.mp hx with rfl
          exact List.mem_cons_self _ _
      simp only
      split
      · exact hnd'
      · exact ih _ _ hsub' hnd'

/-- **C8**: Within one extractor call no two produced records share a
URL; a container whose resolved URL was already seen is skipped, and a
container with no resolvable URL is skipped. -/
theorem extractor_no_duplicate_urls (m : String → String) (cards : List Card)
    (sels : DetectedSelectors) (src ctry : String) (limit : Nat) :
    ((extractJobs m cards sels src ctry limit).map (fun j => j.url)).Nodup ∧
    (∀ c seen, extractUrl c sels.link (extractorBaseUrl src) = none →
      extractJob m c sels src ctry seen = none) ∧
    (∀ c seen u, extractUrl c sels.link (extractorBaseUrl src) = some u →
      u ∈ seen → extractJob m c sels src ctry seen = none) := by
  refine ⟨?_, ?_, ?_⟩
  · exact extractLoop_urls_nodup _ _ _ (by intro j hj; exact absurd hj (List.not_mem_nil j))
      List.nodup_nil
  · intro c seen hu
    unfold extractJob
    rw [hu]
  · intro c seen u hu hmem
    unfold extractJob
    rw [hu]
    simp [hmem]

/-- C8 witness: a duplicated link card plus a linkless card yield
distinct URLs, and both skip rules fire on concrete inputs. -/
theorem extractor_no_duplicate_urls_witness :
    ((extractJobs stubMd5 [aCard, aCard, divCard] {} "geekhunter" "br" 50).map
      (fun j => j.url)).Nodup ∧
    extractJob stubMd5 divCard {} "geekhunter" "br" [] = none ∧
    extractJob stubMd5 aCard {} "geekhunter" "br"
      ["https://www.geekhunter.com.br/vagas/1"] = none := by
  refine ⟨(extractor_no_duplicate_urls stubMd5 [aCard, aCard, divCard] {} "geekhunter" "br" 50).1,
    (extractor_no_duplicate_urls stubMd5 [] {} "geekhunter" "br" 50).2.1 divCard [] (by decide),
    (extractor_no_duplicate_urls stubMd5 [] {} "geekhunter" "br" 50).2.2 aCard
      ["https://www.geekhunter.com.br/vagas/1"]
      "https://www.geekhunter.com.br/vagas/1" (by decide) (by simp)⟩

/-- **C9**: Every record the extractor returns has a title of at least
5 characters; when the selector-derived title is missing or under 5
characters the container's primary link text becomes the title; when
the resolved title is still under 5 characters the container yields no
record. -/
theorem extractor_title_confidence (m : String → String) (cards : List Card)
    (sels : DetectedSelectors) (src ctry : String) (limit : Nat) :
    (∀ j ∈ extractJobs m cards sels src ctry limit, 5 ≤ j.title.length) ∧
    (∀ c l, titleTooShort (extractText c sels.title) →
      (if c.elem.tagName = "a" then some c.elem else c.selectOne "a") = some l →
      resolveTitle c sels = some l.text) ∧
    (∀ c seen, titleTooShort (resolveTitle c sels) →
      extractJob m c sels src ctry seen = none) := by
  refine ⟨?_, ?_, ?_⟩
  · exact extractLoop_mem (fun c seen job h => (extractJob_spec h).2.2.2.1) _ _ _
      (fun j hj => absurd hj (List.not_mem_nil j))
  · intro c l ht hl
    unfold resolveTitle
    rw [if_pos ht, hl]
  · intro c seen ht
    cases hu : extractUrl c sels.link (extractorBaseUrl src) with
    | none => simp [extractJob, hu]
    | some url => simp [extractJob, hu, ht]

/-- C9 witness: a long link title passes, the link-text fallback fires
on `aCard`, and a card whose only title is `"abc"` is skipped. -/
theorem extractor_title_confidence_witness :
    (5 : Nat) ≤ aJob.title.length ∧
    resolveTitle aCard {} = some "Desenvolvedor Python" ∧
    extractJob stubMd5 shortTitleCard {} "geekhunter" "br" [] = none := by
  refine ⟨(extractor_title_confidence stubMd5 [aCard] {} "geekhunter" "br" 50).1
      aJob (by decide),
    (extractor_title_confidence stubMd5 [] {} "geekhunter" "br" 50).2.1
      aCard aCard.elem (by decide) (by decide),
    (extractor_title_confidence stubMd5 [] {} "geekhunter" "br" 50).2.2
      shortTitleCard [] (by decide)⟩

/-- `pyOr` never yields the empty string when its default is
non-empty. -/
lemma pyOr_ne_empty (x : Option String) (d : String) (hd : d ≠ "") :
    pyOr x d ≠ "" := by
  cases x with
  | none => exact hd
  | some s =>
    by_cases hs : s = ""
    · simp [pyOr, hs]
      exact hd
    · simp [pyOr, hs]

/-- **C10**: Every record the extractor returns carries a non-empty
company and a non-empty location; when the company or location
selector yields no text the fixed defaults "Empresa não identificada"
and "Brasil" are used. -/
theorem extractor_company_location_defaults (m : String → String)
    (cards : List Card) (sels : DetectedSelectors) (src ctry : String)
    (limit : Nat) :
    (∀ j ∈ extractJobs m cards sels src ctry limit,
      j.company ≠ "" ∧ ∃ loc, j.location = some loc ∧ loc ≠ "") ∧
    (∀ c seen job, extractJob m c sels src ctry seen = some job →
      (extractText c sels.company = none →
        job.company = "Empresa não identificada") ∧
      (extractText c sels.location = none → job.location = some "Brasil")) := by
  constructor
  · refine extractLoop_mem ?_ _ _ _ (fun j hj => absurd hj (List.not_mem_nil j))
    intro c seen job h
    obtain ⟨-, -, -, -, hc, hl⟩ := extractJob_spec h
    refine ⟨?_, pyOr (extractText c sels.location) "Brasil", hl, ?_⟩
    · rw [hc]; exact pyOr_ne_empty _ _ (by decide)
    · exact pyOr_ne_empty _ _ (by decide)
  · intro c seen job h
    obtain ⟨-, -, -, -, hc, hl⟩ := extractJob_spec h
    constructor
    · intro hnone; rw [hc, hnone]; rfl
    · intro hnone; rw [hl, hnone]; rfl

/-- C10 witness: `aCard` has no company or location selector, so its
record carries both defaults, and they are non-empty. -/
theorem extractor_company_location_defaults_witness :
    aJob.company = "Empresa não identificada" ∧
    aJob.location = some "Brasil" ∧
    aJob.company ≠ "" := by
  have h := (extractor_company_location_defaults stubMd5 [aCard] {} "geekhunter"
    "br" 50).2 aCard [] aJob (by decide)
  have h1 := (extractor_company_location_defaults stubMd5 [aCard] {} "geekhunter"
    "br" 50).1 aJob (by decide)
  exact ⟨h.1 (by decide), h.2 (by decide), h1.1⟩

/-- The merge loop only appends: its result is the accumulator plus a
suffix of accepted secondary records that respects the acceptance
discipline. -/
lemma mergeLoop_spec (limit : Nat) :
    ∀ (secondary : List JobListing) (su sk : List String)
      (acc : List JobListing),
      ∃ t, mergeLoop limit secondary su sk acc = acc ++ t ∧
        (∀ j ∈ t, j ∈ secondary) ∧ appendOk su sk t := by
  intro secondary
  induction secondary with
  | nil =>
    intro su sk acc
    exact ⟨[], by rw [mergeLoop, List.append_nil], by simp, trivial⟩
  | cons job rest ih =>
    intro su sk acc
    rw [mergeLoop]
    by_cases h1 : job.url ≠ "" ∧ job.url ∈ su
    · rw [if_pos h1]
      obtain ⟨t, ht, hsub, hok⟩ := ih su sk acc
      exact ⟨t, ht, fun j hj => List.mem_cons_of_mem _ (hsub j hj), hok⟩
    · rw [if_neg h1]
      by_cases h2 : mergeKey job ∈ sk
      · rw [if_pos h2]
        obtain ⟨t, ht, hsub, hok⟩ := ih su sk acc
        exact ⟨t, ht, fun j hj => List.mem_cons_of_mem _ (hsub j hj), hok⟩
      · rw [if_neg h2]
        have hurl : job.url ≠ "" → job.url ∉ su := fun hne hmem => h1 ⟨hne, hmem⟩
        by_cases h3 : limit ≤ (acc ++ [job]).length
        · rw [if_pos h3]
          refine ⟨[job], rfl, ?_, hurl, h2, trivial⟩
          intro j hj
          rw [List.mem_singleton.mp hj]
          exact List.mem_cons_self _ _
        · rw [if_neg h3]
          obtain ⟨t, ht, hsub, hok⟩ :=
            ih (if job.url ≠ "" then job.url :: su else su)
              (mergeKey job :: sk) (acc ++ [job])
          refine ⟨job :: t, ?_, ?_, hurl, h2, hok⟩
          · rw [ht]; simp
          · intro j hj
            rcases List.mem_cons.mp hj with rfl | hj'
            · exact List.mem_cons_self _ _
            · exact List.mem_cons_of_mem _ (hsub j hj')

/-- Once the accumulator is under the limit, the merge loop's result
never exceeds the limit (the loop breaks as soon as an append reaches
it). -/
lemma mergeLoop_length_le (limit : Nat) :
    ∀ (secondary : List JobListing) (su sk : List String)
      (acc : List JobListing),
      acc.length < limit →
      (mergeLoop limit secondary su sk acc).length ≤ limit := by
  intro secondary
  induction secondary with
  | nil =>
    intro su sk acc hlt
    rw [mergeLoop]
    exact Nat.le_of_lt hlt
  | cons job rest ih =>
    intro su sk acc hlt
    rw [mergeLoop]
    by_cases h1 : job.url ≠ "" ∧ job.url ∈ su
    · rw [if_pos h1]; exact ih su sk acc hlt
    · rw [if_neg h1]
      by_cases h2 : mergeKey job ∈ sk
      · rw [if_pos h2]; exact ih su sk acc hlt
      · rw [if_neg h2]
        by_cases h3 : limit ≤ (acc ++ [job]).length
        · rw [if_pos h3]
          have : (acc ++ [job]).length = acc.length + 1 := by simp
          rw [this]
          exact Nat.succ_le_of_lt hlt
        · rw [if_neg h3]
          exact ih _ _ _ (Nat.lt_of_not_le h3)

/-- **C4**: The hybrid merge keeps every deterministic record
unchanged, in order, as a prefix; each appended oracle record collides
neither by URL nor by lowercased title|company key with anything
already accepted; appending stops once the combined count reaches the
limit; and the concrete `{url: "a"}` example merges to exactly 3
records with distinct URLs. -/
theorem hybrid_merge_spec (primary secondary : List JobListing)
    (limit : Nat) :
    (mergeJobs primary secondary limit).take primary.length = primary ∧
    (∃ t, mergeJobs primary secondary limit = primary ++ t ∧
      (∀ j ∈ t, j ∈ secondary) ∧
      appendOk ((primary.filter (fun j => j.url ≠ "")).map (fun j => j.url))
        (primary.map mergeKey) t) ∧
    (primary.length < limit →
      (mergeJobs primary secondary limit).length ≤ limit) ∧
    ((mergeJobs [jobA] [jobADup, jobB, jobC] 50).length = 3 ∧
      ((mergeJobs [jobA] [jobADup, jobB, jobC] 50).map
        (fun j => j.url)).Nodup) := by
  obtain ⟨t, ht, hsub, hok⟩ := mergeLoop_spec limit secondary
    ((primary.filter (fun j => j.url ≠ "")).map (fun j => j.url))
    (primary.map mergeKey) primary
  refine ⟨?_, ⟨t, ht, hsub, hok⟩, ?_, by decide, by decide⟩
  · unfold mergeJobs
    rw [ht, List.take_left]
  · intro hlt
    exact mergeLoop_length_le limit secondary _ _ primary hlt

/-- C4 witness: the concrete merge keeps the deterministic record as
prefix and stays within the limit. -/
theorem hybrid_merge_spec_witness :
    (mergeJobs [jobA] [jobADup, jobB, jobC] 50).take 1 = [jobA] ∧
    (mergeJobs [jobA] [jobADup, jobB, jobC] 50).length ≤ 50 :=
  ⟨(hybrid_merge_spec [jobA] [jobADup, jobB, jobC] 50).1,
   (hybrid_merge_spec [jobA] [jobADup, jobB, jobC] 50).2.2.1 (by decide)⟩

/-- **C5**: The hybrid search consults the extraction oracle exactly
when the deterministic parse yields fewer than the fallback threshold
records and the fallback is enabled — then exactly once, on the
fetched markup with the same limit — and never when the yield meets
the threshold. -/
theorem hybrid_fallback_gating (env : HybridEnv) (keyword country : String)
    (limit : Nat) :
    (env.aiFallbackThreshold ≤
        (env.parseHtml (env.fetchResult (env.buildSearchUrl keyword country))
          limit).length →
      (hybridSearch env keyword country limit).2 = []) ∧
    ((env.parseHtml (env.fetchResult (env.buildSearchUrl keyword country))
        limit).length < env.aiFallbackThreshold →
      env.aiFallbackEnabled = true →
      (hybridSearch env keyword country limit).2 =
        [(env.fetchResult (env.buildSearchUrl keyword country), limit)]) := by
  constructor
  · intro hge
    unfold hybridSearch
    rw [if_neg]
    rintro ⟨hlt, -⟩
    exact absurd hlt (not_lt.mpr hge)
  · intro hlt hen
    unfold hybridSearch
    rw [if_pos ⟨hlt, by rw [hen]⟩]

/-- C5 witness: a three-record deterministic parse skips the oracle; a
zero-record parse invokes it once on the fetched markup. -/
theorem hybrid_fallback_gating_witness :
    (hybridSearch highYieldEnv "python" "br" 10).2 = [] ∧
    (hybridSearch lowYieldEnv "python" "br" 10).2 =
      [("<html>pagina</html>", 10)] :=
  ⟨(hybrid_fallback_gating highYieldEnv "python" "br" 10).1 (by decide),
   (hybrid_fallback_gating lowYieldEnv "python" "br" 10).2 (by decide)
     (by decide)⟩

/-- **C6**: For any URL whose domain (after stripping a leading
`"www."`) is on the script-dependent allowlist, the fetch strategy
goes straight to the render path: the rendered markup is returned and
the lightweight HTTP fetch is never attempted, whatever it would have
returned. -/
theorem allowlisted_domain_always_renders (url : String) (forceJs : Bool)
    (httpResult : Option (String × Nat)) (rendered : String)
    (vt : String → String)
    (h : domainRequiresJs url = true) :
    adaptiveFetch url forceJs httpResult rendered vt =
      { html := rendered, usedPlaywright := true, httpAttempted := false } := by
  simp [adaptiveFetch, h]

/-- C6 witness: `www.geekhunter.com.br` is allowlisted, so even a rich
HTTP response available at status 200 is never consulted. -/
theorem allowlisted_domain_always_renders_witness :
    adaptiveFetch "https://www.geekhunter.com.br/vagas?search=python" false
      (some ("<html>conteudo rico e completo</html>", 200)) "RENDERED"
      (fun h => h) =
      { html := "RENDERED", usedPlaywright := true, httpAttempted := false } :=
  allowlisted_domain_always_renders _ _ _ _ _ (by decide)

/-- The indicator loop fires when any listed indicator occurs in the
lowercased markup while the visible text is under 1000 characters. -/
lemma spaIndicatorLoop_of_mem {htmlLower : String} {textLen : Nat}
    (inds : List String) (ind : String) (hmem : ind ∈ inds)
    (hsub : containsSub htmlLower (pyLower ind) = true)
    (hlen : textLen < 1000) :
    spaIndicatorLoop htmlLower textLen inds = true := by
  induction inds with
  | nil => exact absurd hmem (List.not_mem_nil ind)
  | cons i rest ih =>
    rw [spaIndicatorLoop]
    by_cases h : containsSub htmlLower (pyLower i) ∧ textLen < 1000
    · rw [if_pos h]
    · rw [if_neg h]
      rcases List.mem_cons.mp hmem with heq | hmem'
      · rw [heq] at hsub
        exact absurd ⟨hsub, hlen⟩ h
      · exact ih hmem'

/-- **C7**: The incompleteness heuristic classifies markup as
script-requiring whenever the visible text is under 500 characters,
and whenever any of the fixed framework/loading markers occurs in the
raw markup while the visible text is under 1000 characters. -/
theorem incompleteness_heuristic (html visibleText : String) :
    (visibleText.length < 500 → htmlNeedsJs html visibleText = true) ∧
    (∀ ind ∈ spaIndicators,
      containsSub (pyLower html) (pyLower ind) = true →
      visibleText.length < 1000 → htmlNeedsJs html visibleText = true) := by
  constructor
  · intro h
    unfold htmlNeedsJs
    rw [if_pos h]
  · intro ind hmem hsub hlen
    unfold htmlNeedsJs
    by_cases h5 : visibleText.length < 500
    · rw [if_pos h5]
    · rw [if_neg h5]
      exact spaIndicatorLoop_of_mem spaIndicators ind hmem hsub hlen

set_option maxRecDepth 4000 in
/-- C7 witness: 200 characters of visible text escalate, and an
`id="app"` marker with short text escalates. -/
theorem incompleteness_heuristic_witness :
    htmlNeedsJs "<html>conteudo</html>" shortText200 = true ∧
    htmlNeedsJs "<div id=\"app\"></div>" shortText200 = true :=
  ⟨(incompleteness_heuristic "<html>conteudo</html>" shortText200).1
      (by decide),
   (incompleteness_heuristic "<div id=\"app\"></div>" shortText200).2
      "id=\"app\"" (by decide) (by decide) (by decide)⟩

set_option maxRecDepth 8000 in
/-- **C3 counterexample**: status 201 lies in the 2xx range and the
fetched markup is complete (500 characters of visible text, no SPA
markers, so the heuristic does not fire), yet the fetch escalates to
the render path purely on the status — the code tests `status != 200`,
not "not 2xx". -/
theorem fetch_status_2xx_counterexample :
    ((200 : Nat) ≤ 201 ∧ (201 : Nat) < 300) ∧
    htmlNeedsJs plainText500 plainText500 = false ∧
    adaptiveFetch "http://example.com/jobs" false (some (plainText500, 201))
      "RENDERED" (fun h => h) =
      { html := "RENDERED", usedPlaywright := true, httpAttempted := true } :=
  ⟨by decide, by decide, by decide⟩

/-- **C3 amended**: for a lightweight fetch that returns, escalation
on the grounds of the response status happens exactly when the status
differs from 200; only for a status of exactly 200 does the strategy
consult the incompleteness heuristic on the returned markup. -/
theorem fetch_status_escalation (url : String) (html rendered : String)
    (status : Nat) (vt : String → String)
    (hdom : domainRequiresJs url = false) :
    (adaptiveFetch url false (some (html, status)) rendered vt).usedPlaywright =
      (decide (status ≠ 200) || htmlNeedsJs html (vt html)) := by
  unfold adaptiveFetch
  by_cases hs : status = 200
  · by_cases hj : htmlNeedsJs html (vt html) = true
    · simp [hdom, hs, hj]
    · have hj' : htmlNeedsJs html (vt html) = false := by simpa using hj
      simp [hdom, hs, hj']
  · simp [hdom, hs]

/-- C3-amended witness: a 404 escalates; with status 200 the decision
follows the heuristic. -/
theorem fetch_status_escalation_witness :
    (adaptiveFetch "http://example.com/jobs" false (some ("<p>x</p>", 404))
      "RENDERED" (fun h => h)).usedPlaywright =
      (decide ((404 : Nat) ≠ 200) ||
        htmlNeedsJs "<p>x</p>" ((fun h => h) "<p>x</p>")) :=
  fetch_status_escalation "http://example.com/jobs" "<p>x</p>" "RENDERED" 404
    (fun h => h) (by decide)

/-- **C1 counterexample**: with an empty keyword the orchestrator
returns zero records together with an EMPTY error list — not an error
list with exactly one entry naming the search stage, as claimed. The
validation failure lives only in the stage outcome. -/
theorem search_validation_error_list_counterexample :
    (orchestratorSearch stubNav emptyPageDom stubMd5 "" "geekhunter" "br" 50
      {}).jobs = [] ∧
    (orchestratorSearch stubNav emptyPageDom stubMd5 "" "geekhunter" "br" 50
      {}).errors = [] ∧
    ¬((orchestratorSearch stubNav emptyPageDom stubMd5 "" "geekhunter" "br" 50
      {}).errors.length = 1) :=
  ⟨by decide, by decide, by decide⟩

/-- **C1 amended**: when the search stage fails its context validation
the orchestrator returns zero records and an empty error list (the
validation failure is reported only in the search stage's failed
outcome, whose error names the SearchAgent), and the page, analyzer
and extractor stages are not run — the trace contains only the search
stage, whose body never executed. -/
theorem search_validation_failure_behavior
    (nav : String → Except String (String × String)) (dom : Dom)
    (m : String → String) (keyword source country : String) (limit : Nat)
    (md : ScraperMetadata) (e : String)
    (hval : searchValidate (initialContext keyword source country limit md)
      = some e) :
    (orchestratorSearch nav dom m keyword source country limit md).jobs = [] ∧
    (orchestratorSearch nav dom m keyword source country limit md).errors
      = [] ∧
    (orchestratorSearch nav dom m keyword source country limit md).trace =
      [⟨"search", AgentResult.failed e "Context validation failed", false⟩] := by
  simp only [orchestratorSearch, pipelineAgents, runPipeline, runAgent, hval]
  simp [AgentResult.failed, initialContext]

/-- C1 witness: concrete empty-keyword run. -/
theorem search_validation_failure_behavior_witness :
    (orchestratorSearch stubNav emptyPageDom stubMd5 "" "geekhunter" "br" 10
      {}).jobs = [] ∧
    (orchestratorSearch stubNav emptyPageDom stubMd5 "" "geekhunter" "br" 10
      {}).errors = [] ∧
    (orchestratorSearch stubNav emptyPageDom stubMd5 "" "geekhunter" "br" 10
      {}).trace =
      [⟨"search",
        AgentResult.failed "keyword is required for SearchAgent"
          "Context validation failed", false⟩] :=
  search_validation_failure_behavior stubNav emptyPageDom stubMd5 ""
    "geekhunter" "br" 10 {} "keyword is required for SearchAgent" (by decide)

/-- One pipeline step whose stage did not fail continues with the
updated context and records the stage in the trace. -/
lemma runPipeline_cons_ok {a : Agent} {rest : List Agent}
    {ctx c' : AgentContext} {r : AgentResult} {b : Bool}
    (h : runAgent a ctx = (c', r, b))
    (hr : ¬ r.status = AgentStatus.failed) :
    runPipeline (a :: rest) ctx =
      ((runPipeline rest c').1,
        ⟨a.name, r, b⟩ :: (runPipeline rest c').2) := by
  rw [runPipeline, h]
  simp [hr]

/-- One pipeline step of a non-critical stage (neither `search` nor
`page`) continues even when the stage failed. -/
lemma runPipeline_cons_noncritical {a : Agent} {rest : List Agent}
    {ctx c' : AgentContext} {r : AgentResult} {b : Bool}
    (h : runAgent a ctx = (c', r, b))
    (hname : ¬(a.name = "search" ∨ a.name = "page")) :
    runPipeline (a :: rest) ctx =
      ((runPipeline rest c').1,
        ⟨a.name, r, b⟩ :: (runPipeline rest c').2) := by
  rw [runPipeline, h]
  simp [hname]

/-- **C2 counterexample**: a full pipeline run in which the analyzer
detects no job-card selector ends with an EMPTY error list — the
extractor's precondition failure is not appended to the context's
error list, so there is no "second, distinct entry" (nor any entry at
all). -/
theorem extractor_failure_error_list_counterexample :
    (orchestratorSearch stubNav emptyPageDom stubMd5 "python" "geekhunter"
      "br" 50 {}).errors = [] ∧
    (orchestratorSearch stubNav emptyPageDom stubMd5 "python" "geekhunter"
      "br" 50 {}).errors.length < 2 :=
  ⟨by decide, by decide⟩

/-- **C2 amended**: when the analyzer completes with no detected
job-card selector (it still succeeds, storing a selector dict whose
`job_card` is `None`), the orchestrator still invokes the extractor
stage; the extractor fails its precondition check (`job_card` selector
required) without running its body; that failure is reported only in
the extractor's stage outcome — the context's error list stays empty
and no records are produced. -/
theorem extractor_failure_after_empty_analysis (dom : Dom)
    (m : String → String) (ptitle html : String)
    (hhtml : html ≠ "")
    (hfirst : detectJobCards dom (KNOWN_SELECTORS "geekhunter").job_cards
      = (none, 0))
    (hauto : autoDetectJobCards dom = (none, 0)) :
    (orchestratorSearch (fun _ => Except.ok (ptitle, html)) dom m "python"
      "geekhunter" "br" 50 {}).jobs = [] ∧
    (orchestratorSearch (fun _ => Except.ok (ptitle, html)) dom m "python"
      "geekhunter" "br" 50 {}).errors = [] ∧
    (orchestratorSearch (fun _ => Except.ok (ptitle, html)) dom m "python"
      "geekhunter" "br" 50 {}).trace =
      [⟨"search", AgentResult.success "Search URL built for geekhunter", true⟩,
       ⟨"page", AgentResult.success
          ("Page loaded successfully (" ++ toString html.length ++ " bytes)"),
          true⟩,
       ⟨"analyzer", AgentResult.success
          "Analyzed page structure, found 0 job cards", true⟩,
       ⟨"extractor", AgentResult.failed
          "job_card selector is required for ExtractorAgent"
          "Context validation failed", false⟩] := by
  have h1 : runAgent ⟨"search", searchValidate, searchExecute⟩
      (initialContext "python" "geekhunter" "br" 50 {}) =
      (ctxAfterSearch,
        AgentResult.success "Search URL built for geekhunter", true) := by
    decide
  have h2 : runAgent ⟨"page", pageValidate,
      pageExecute (fun _ => Except.ok (ptitle, html))⟩ ctxAfterSearch =
      (ctxAfterPage ptitle html,
        AgentResult.success
          ("Page loaded successfully (" ++ toString html.length ++ " bytes)"),
        true) := rfl
  have h3 : runAgent ⟨"analyzer", analyzerValidate, analyzerExecute dom⟩
      (ctxAfterPage ptitle html) =
      (ctxAfterAnalysis dom ptitle html,
        AgentResult.success "Analyzed page structure, found 0 job cards",
        true) := by
    have hval : analyzerValidate (ctxAfterPage ptitle html) = none := by
      simp [analyzerValidate, ctxAfterPage, ctxAfterSearch, hhtml]
    have hexec : analyzerExecute dom (ctxAfterPage ptitle html) =
        Except.ok (ctxAfterAnalysis dom ptitle html,
          AgentResult.success "Analyzed page structure, found 0 job cards") := by
      unfold analyzerExecute
      rw [show (ctxAfterPage ptitle html).source = "geekhunter" from rfl]
      simp only [hfirst, hauto]
      rfl
    simp only [runAgent]
    rw [hval, hexec]
    rfl
  have h4 : runAgent ⟨"extractor", extractorValidate, extractorExecute m dom⟩
      (ctxAfterAnalysis dom ptitle html) =
      (ctxAfterAnalysis dom ptitle html,
        AgentResult.failed "job_card selector is required for ExtractorAgent"
          "Context validation failed", false) := by
    have hval : extractorValidate (ctxAfterAnalysis dom ptitle html) =
        some "job_card selector is required for ExtractorAgent" := by
      simp [extractorValidate, ctxAfterAnalysis, ctxAfterPage, ctxAfterSearch,
        geekhunterNoCardSelectors, hhtml]
    simp only [runAgent]
    rw [hval]
  have hpipe : runPipeline
      (pipelineAgents (fun _ => Except.ok (ptitle, html)) dom m)
      (initialContext "python" "geekhunter" "br" 50 {}) =
      (ctxAfterAnalysis dom ptitle html,
        [⟨"search", AgentResult.success "Search URL built for geekhunter",
          true⟩,
         ⟨"page", AgentResult.success
            ("Page loaded successfully (" ++ toString html.length ++
              " bytes)"), true⟩,
         ⟨"analyzer", AgentResult.success
            "Analyzed page structure, found 0 job cards", true⟩,
         ⟨"extractor", AgentResult.failed
            "job_card selector is required for ExtractorAgent"
            "Context validation failed", false⟩]) := by
    unfold pipelineAgents
    rw [runPipeline_cons_ok h1 (by simp [AgentResult.success]),
      runPipeline_cons_ok h2 (by simp [AgentResult.success]),
      runPipeline_cons_ok h3 (by simp [AgentResult.success]),
      runPipeline_cons_noncritical h4 (by simp), runPipeline]
  refine ⟨?_, ?_, ?_⟩ <;>
    simp [orchestratorSearch, hpipe, ctxAfterAnalysis, ctxAfterPage,
      ctxAfterSearch]

/-- C2 witness: concrete run against a page where nothing matches. -/
theorem extractor_failure_after_empty_analysis_witness :
    (orchestratorSearch (fun _ => Except.ok ("Vagas", "<html>x</html>"))
      emptyPageDom stubMd5 "python" "geekhunter" "br" 50 {}).jobs = [] ∧
    (orchestratorSearch (fun _ => Except.ok ("Vagas", "<html>x</html>"))
      emptyPageDom stubMd5 "python" "geekhunter" "br" 50 {}).errors = [] ∧
    (orchestratorSearch (fun _ => Except.ok ("Vagas", "<html>x</html>"))
      emptyPageDom stubMd5 "python" "geekhunter" "br" 50 {}).trace =
      [⟨"search", AgentResult.success "Search URL built for geekhunter", true⟩,
       ⟨"page", AgentResult.success
          ("Page loaded successfully (" ++
            toString ("<html>x</html>" : String).length ++ " bytes)"), true⟩,
       ⟨"analyzer", AgentResult.success
          "Analyzed page structure, found 0 job cards", true⟩,
       ⟨"extractor", AgentResult.failed
          "job_card selector is required for ExtractorAgent"
          "Context validation failed", false⟩] :=
  extractor_failure_after_empty_analysis emptyPageDom stubMd5 "Vagas"
    "<html>x</html>" (by decide) (by decide) (by decide)

end JobScraper
